import Mathlib

/-!
Shallow embedding of the mirrord repository's protocol file module
(`mirrord/protocol/src/file.rs`) and auth credentials module
(`mirrord/auth/src/credentials.rs`), together with theorems settling the
specification claims about them.

Machine integers are embedded as `Nat`/`Int`, with explicit `% 65536`
where the source performs `u16` arithmetic.  Fallible conversions are
embedded with `Except`.  Wall-clock instants (`DateTime<Utc>`) are
embedded as integer Unix timestamps in seconds, and calendar dates
(`NaiveDate`) as integer day numbers.
-/

/-! ## Directory entries (`mirrord/protocol/src/file.rs`) -/

/-- `DirEntryInternal` from `file.rs`: inode and position are `u64`,
`name` is a Rust `String` (UTF-8), `file_type` is a `u8` `DT_*` tag. -/
structure DirEntryInternal where
  inode : Nat
  position : Nat
  name : String
  file_type : Nat
deriving DecidableEq

/-- `DirEntryInternal::round_up_to_next_multiple_of_8` from `file.rs`:
`(x + 7) & !7` computed on `u16`.  The argument is a `u16` value
(`< 65536`); the addition wraps modulo `2^16` and `!7 : u16 = 65528`. -/
def DirEntryInternal.round_up_to_next_multiple_of_8 (x : Nat) : Nat :=
  ((x + 7) % 65536) &&& 65528

/-- `DirEntryInternal::get_d_reclen64` from `file.rs`:
`round_up_to_next_multiple_of_8(20 + self.name.len() as u16)`.
`self.name.len()` is the UTF-8 byte length; the `as u16` cast truncates
it modulo `2^16` and the `u16` addition wraps modulo `2^16`. -/
def DirEntryInternal.get_d_reclen64 (e : DirEntryInternal) : Nat :=
  DirEntryInternal.round_up_to_next_multiple_of_8
    ((20 + e.name.utf8ByteSize % 65536) % 65536)

/-- The specification's rounding rule, written for unbounded naturals:
`round_up_to_multiple_of_8(x) = (x + 7) & ~7`, i.e. `x + 7` with its low
three bits cleared, which on `Nat` is `(x + 7) / 8 * 8`. -/
def spec_round_up_to_multiple_of_8 (x : Nat) : Nat :=
  (x + 7) / 8 * 8

/-! ## Open options (`mirrord/protocol/src/file.rs`) -/

/-- `OpenOptionsInternal` from `file.rs`: six independent booleans. -/
structure OpenOptionsInternal where
  read : Bool
  write : Bool
  append : Bool
  truncate : Bool
  create : Bool
  create_new : Bool
deriving DecidableEq

/-- `OpenOptionsInternal::is_read_only` from `file.rs`. -/
def OpenOptionsInternal.is_read_only (o : OpenOptionsInternal) : Bool :=
  o.read && !(o.write || o.append || o.truncate || o.create || o.create_new)

/-- `OpenOptionsInternal::is_write` from `file.rs`. -/
def OpenOptionsInternal.is_write (o : OpenOptionsInternal) : Bool :=
  o.write || o.append || o.truncate || o.create || o.create_new

/-! ## Seek origins (`mirrord/protocol/src/file.rs`) -/

/-- `SeekFromInternal` from `file.rs`: `Start(u64)`, `End(i64)`,
`Current(i64)`. -/
inductive SeekFromInternal where
  | Start (offset : Nat)
  | End (offset : Int)
  | Current (offset : Int)
deriving DecidableEq

/-- `std::io::SeekFrom`, the native seek-origin type mirrored by
`SeekFromInternal`. -/
inductive SeekFrom where
  | Start (offset : Nat)
  | End (offset : Int)
  | Current (offset : Int)
deriving DecidableEq

/-- `impl From<SeekFromInternal> for SeekFrom` from `file.rs`. -/
def SeekFromInternal.toSeekFrom : SeekFromInternal → SeekFrom
  | .Start start => .Start start
  | .End e => .End e
  | .Current current => .Current current

/-- `impl From<SeekFrom> for SeekFromInternal` from `file.rs`. -/
def SeekFrom.toSeekFromInternal : SeekFrom → SeekFromInternal
  | .Start start => .Start start
  | .End e => .End e
  | .Current current => .Current current

/-! ## Protocol version gate (`mirrord/protocol/src/file.rs`) -/

/-- A semantic version `major.minor.patch` (release versions, no
prerelease component, as negotiated by the protocol). -/
structure SemVersion where
  major : Nat
  minor : Nat
  patch : Nat
deriving DecidableEq

/-- Lexicographic "at or above" on semantic versions, as a proposition:
`min ≤ v` in the usual semver ordering. -/
def SemVersion.AtOrAbove (min v : SemVersion) : Prop :=
  min.major < v.major ∨
    (min.major = v.major ∧
      (min.minor < v.minor ∨ (min.minor = v.minor ∧ min.patch ≤ v.patch)))

/-- Modelled from the spec: the matching behaviour of the external
`semver` crate's `VersionReq` for a `>=MAJOR.MINOR.PATCH` requirement on
release versions (the crate itself is a dependency, not part of this
repository's sources).  The spec describes the gate as "a negotiated
protocol version satisfying a fixed minimum-version constraint". -/
def versionReqGeMatches (min v : SemVersion) : Bool :=
  decide (min.major < v.major) ||
    (decide (min.major = v.major) &&
      (decide (min.minor < v.minor) ||
        (decide (min.minor = v.minor) && decide (min.patch ≤ v.patch))))

/-- `READDIR_BATCH_VERSION` from `file.rs`: the `">=1.9.0"` requirement,
as the predicate it denotes on negotiated versions. -/
def READDIR_BATCH_VERSION_matches (v : SemVersion) : Bool :=
  versionReqGeMatches ⟨1, 9, 0⟩ v

/-- `MKDIR_VERSION` from `file.rs`: the `">=1.12.0"` requirement, as the
predicate it denotes on negotiated versions. -/
def MKDIR_VERSION_matches (v : SemVersion) : Bool :=
  versionReqGeMatches ⟨1, 12, 0⟩ v

/-! ## Directory entry conversion (`mirrord/protocol/src/file.rs`) -/

/-- An `std::io::Error`, abstracted to an error code. -/
structure IoError where
  code : Nat
deriving DecidableEq

/-- The part of `std::fs::Metadata` used by the conversion: the `st_mode`
bits (`u32`). -/
structure EntryMetadata where
  mode : Nat
deriving DecidableEq

/-- The part of `std::fs::DirEntry` used by the conversion: `ino()`,
`file_name()` and the (fallible) result of `metadata()`. -/
structure DirEntry where
  ino : Nat
  metadata : Except IoError EntryMetadata
  file_name : String

/-- `libc::S_IFMT` (`0o170000`). -/
def S_IFMT : Nat := 61440
/-- `libc::S_IFLNK` (`0o120000`). -/
def S_IFLNK : Nat := 40960
/-- `libc::S_IFREG` (`0o100000`). -/
def S_IFREG : Nat := 32768
/-- `libc::S_IFBLK` (`0o060000`). -/
def S_IFBLK : Nat := 24576
/-- `libc::S_IFDIR` (`0o040000`). -/
def S_IFDIR : Nat := 16384
/-- `libc::S_IFCHR` (`0o020000`). -/
def S_IFCHR : Nat := 8192
/-- `libc::S_IFIFO` (`0o010000`). -/
def S_IFIFO : Nat := 4096
/-- `libc::S_IFSOCK` (`0o140000`). -/
def S_IFSOCK : Nat := 49152

/-- `libc::DT_UNKNOWN`. -/
def DT_UNKNOWN : Nat := 0
/-- `libc::DT_FIFO`. -/
def DT_FIFO : Nat := 1
/-- `libc::DT_CHR`. -/
def DT_CHR : Nat := 2
/-- `libc::DT_DIR`. -/
def DT_DIR : Nat := 4
/-- `libc::DT_BLK`. -/
def DT_BLK : Nat := 6
/-- `libc::DT_REG`. -/
def DT_REG : Nat := 8
/-- `libc::DT_LNK`. -/
def DT_LNK : Nat := 10
/-- `libc::DT_SOCK`. -/
def DT_SOCK : Nat := 12

/-- The `match mode & libc::S_IFMT` arms of the `TryFrom` impl in
`file.rs`, deriving the `DT_*` tag from the mode bits. -/
def dtTypeOfMode (mode : Nat) : Nat :=
  if mode &&& S_IFMT = S_IFLNK then DT_LNK
  else if mode &&& S_IFMT = S_IFREG then DT_REG
  else if mode &&& S_IFMT = S_IFBLK then DT_BLK
  else if mode &&& S_IFMT = S_IFDIR then DT_DIR
  else if mode &&& S_IFMT = S_IFCHR then DT_CHR
  else if mode &&& S_IFMT = S_IFIFO then DT_FIFO
  else if mode &&& S_IFMT = S_IFSOCK then DT_SOCK
  else DT_UNKNOWN

/-- `impl TryFrom<(usize, io::Result<DirEntry>)> for DirEntryInternal`
from `file.rs`: `entry?`, then `entry.metadata()?.mode()`, then the
`match` on `mode & S_IFMT`, then `Ok(DirEntryInternal { .. })`. -/
def DirEntryInternal.tryFromOffsetEntry (offset : Nat)
    (entry : Except IoError DirEntry) : Except IoError DirEntryInternal := do
  let entry ← entry
  let md ← entry.metadata
  pure { inode := entry.ino, position := offset, name := entry.file_name,
         file_type := dtTypeOfMode md.mode }

/-! ## Byte-payload messages and their Debug output
(`mirrord/protocol/src/file.rs`) -/

/-- `ReadFileResponse` from `file.rs`: `bytes: Vec<u8>`,
`read_amount: u64`. -/
structure ReadFileResponse where
  bytes : List Nat
  read_amount : Nat
deriving DecidableEq

/-- `impl fmt::Debug for ReadFileResponse` from `file.rs`: reports
`bytes` only through its length. -/
def ReadFileResponse.debugFmt (r : ReadFileResponse) : String :=
  "ReadFileResponse \x7b bytes (length): " ++ toString r.bytes.length ++
    ", read_amount: " ++ toString r.read_amount ++ " \x7d"

/-- `WriteFileRequest` from `file.rs`: `fd: u64`,
`write_bytes: Vec<u8>`. -/
structure WriteFileRequest where
  fd : Nat
  write_bytes : List Nat
deriving DecidableEq

/-- `impl fmt::Debug for WriteFileRequest` from `file.rs`: reports
`write_bytes` only through its length. -/
def WriteFileRequest.debugFmt (w : WriteFileRequest) : String :=
  "WriteFileRequest \x7b fd: " ++ toString w.fd ++
    ", write_bytes (length): " ++ toString w.write_bytes.length ++ " \x7d"

/-! ## Credentials (`mirrord/auth/src/credentials.rs`) -/

/-- `x509_certificate::asn1time::Time`: either a `UtcTime` or a
`GeneralTime`, both denoting a `DateTime<Utc>` instant (embedded as an
integer timestamp in seconds). -/
inductive Asn1Time where
  | UtcTime (t : Int)
  | GeneralTime (t : Int)
deriving DecidableEq

/-- The `DateTime<Utc>` denoted by an ASN.1 time, as extracted by the two
match arms of `is_date_valid` in `credentials.rs`. -/
def Asn1Time.toDateTime : Asn1Time → Int
  | .UtcTime t => t
  | .GeneralTime t => t

/-- `rfc5280::Validity`: the certificate validity window. -/
structure Validity where
  not_before : Asn1Time
  not_after : Asn1Time
deriving DecidableEq

/-- `DateValidityExt::is_date_valid` for `rfc5280::Validity` from
`credentials.rs`: `not_before < other && other < not_after`. -/
def Validity.is_date_valid (v : Validity) (other : Int) : Bool :=
  decide (v.not_before.toDateTime < other) &&
    decide (other < v.not_after.toDateTime)

/-- The certificate held by `Credentials`, reduced to the
`tbs_certificate.validity` window that `is_valid` inspects. -/
structure Certificate where
  validity : Validity
deriving DecidableEq

/-- `Credentials` from `credentials.rs`, reduced to its certificate. -/
structure Credentials where
  certificate : Certificate
deriving DecidableEq

/-- `Credentials::is_valid` from `credentials.rs`, with the `Utc::now()`
instant passed explicitly:
`self.certificate.tbs_certificate.validity.is_date_valid(now)`. -/
def Credentials.is_valid (c : Credentials) (now : Int) : Bool :=
  c.certificate.validity.is_date_valid now

/-- Seconds per day; chrono's `Duration::num_days` is
`num_seconds() / 86_400` with Rust (truncating) integer division. -/
def SECS_PER_DAY : Int := 86400

/-- chrono's `Duration::num_days` on a duration of `secs` seconds:
Rust `i64` division truncates toward zero (`Int.tdiv`). -/
def num_days (secs : Int) : Int :=
  secs.tdiv SECS_PER_DAY

/-- Rust `i64::try_into::<u64>().ok()`: `none` exactly on negatives. -/
def i64_into_u64_ok (n : Int) : Option Nat :=
  if 0 ≤ n then some n.toNat else none

/-- `LicenseValidity::days_until_expiration` for `DateTime<Utc>` from
`credentials.rs`, with `Utc::now()` passed explicitly:
`self.signed_duration_since(now).num_days().try_into().ok()`.
Instants are integer timestamps in seconds. -/
def dateTimeDaysUntilExpiration (self now : Int) : Option Nat :=
  i64_into_u64_ok (num_days (self - now))

/-- `LicenseValidity::days_until_expiration` for `NaiveDate` from
`credentials.rs`, with today's date passed explicitly.  Dates are
integer day numbers; `signed_duration_since` on dates is a duration of
exactly `(self - today)` days, whose `num_days` is computed by the same
truncating division. -/
def naiveDateDaysUntilExpiration (self today : Int) : Option Nat :=
  i64_into_u64_ok (num_days ((self - today) * SECS_PER_DAY))

/-! ## Helper lemmas -/

/-- Masking a sixteen-bit value with `65528 = !7 : u16` clears its low
three bits. -/
theorem land_65528 (y : Nat) (hy : y < 65536) : y &&& 65528 = y / 8 * 8 := by
  have hr : y / 8 * 8 = 2 ^ 3 * (y >>> 3) := by
    rw [Nat.shiftRight_eq_div_pow]
    norm_num [Nat.mul_comm]
  have hm : (65528 : Nat) = 2 ^ 3 * (2 ^ 13 - 1) := by norm_num
  rw [hr, hm]
  apply Nat.eq_of_testBit_eq
  intro i
  rw [Nat.testBit_and, Nat.testBit_mul_pow_two, Nat.testBit_mul_pow_two,
      Nat.testBit_two_pow_sub_one, Nat.testBit_shiftRight]
  by_cases h3 : 3 ≤ i
  · by_cases h16 : i < 16
    · simp [ge_iff_le, h3, show i - 3 < 13 by omega, show 3 + (i - 3) = i by omega]
    · have hbit : y.testBit i = false := by
        apply Nat.testBit_lt_two_pow
        calc y < 65536 := hy
          _ = 2 ^ 16 := by norm_num
          _ ≤ 2 ^ i := Nat.pow_le_pow_right (by norm_num) (by omega)
      simp [ge_iff_le, h3, show ¬(i - 3 < 13) by omega,
        show 3 + (i - 3) = i by omega, hbit]
  · simp [ge_iff_le, h3]

/-- The UTF-8 byte size of a replicated character list. -/
theorem utf8_go_replicate (c : Char) (n : Nat) :
    String.utf8ByteSize.go (List.replicate n c) = n * c.utf8Size := by
  induction n with
  | zero => rw [List.replicate_zero]; show 0 = 0 * c.utf8Size; rw [Nat.zero_mul]
  | succ n ih =>
    rw [List.replicate_succ]
    show String.utf8ByteSize.go (List.replicate n c) + c.utf8Size = _
    rw [ih]; ring

/-- The UTF-8 byte size of a string of `n` copies of a character. -/
theorem utf8_replicate (c : Char) (n : Nat) :
    (String.mk (List.replicate n c)).utf8ByteSize = n * c.utf8Size :=
  utf8_go_replicate c n

/-- A string of `n` copies of `'a'` has UTF-8 byte size `n`. -/
theorem utf8_replicate_a (n : Nat) :
    (String.mk (List.replicate n 'a')).utf8ByteSize = n := by
  rw [utf8_replicate]
  have h : ('a' : Char).utf8Size = 1 := by decide
  rw [h, Nat.mul_one]

/-- Truncating integer division, expressed through Euclidean division. -/
theorem tdiv_split (d n : Int) (hn : 0 ≤ n) :
    d.tdiv n = if 0 ≤ d then d / n else -((-d) / n) := by
  split
  · exact Int.tdiv_eq_ediv (by assumption) hn
  · have h3 := Int.neg_tdiv d n
    rw [Int.tdiv_eq_ediv (by omega) hn] at h3
    linarith [h3]

/-- In-range record lengths agree with the specification formula. -/
theorem reclen_eq_spec (len : Nat) (h : len ≤ 65508) :
    DirEntryInternal.round_up_to_next_multiple_of_8 ((20 + len % 65536) % 65536) =
      spec_round_up_to_multiple_of_8 (20 + len) := by
  have h1 : len % 65536 = len := Nat.mod_eq_of_lt (by omega)
  rw [h1]
  have h2 : (20 + len) % 65536 = 20 + len := Nat.mod_eq_of_lt (by omega)
  unfold DirEntryInternal.round_up_to_next_multiple_of_8 spec_round_up_to_multiple_of_8
  rw [h2]
  have h3 : (20 + len + 7) % 65536 = 20 + len + 7 := Nat.mod_eq_of_lt (by omega)
  rw [h3, land_65528 _ (by omega)]

/-- A directory entry whose name is 65509 bytes of `'a'`: large enough
that the `u16` arithmetic in `get_d_reclen64` wraps. -/
def bigNameEntry : DirEntryInternal :=
  { inode := 1, position := 0, name := String.mk (List.replicate 65509 'a'),
    file_type := DT_REG }

/-- A directory entry named `file.txt`. -/
def fileTxtEntry : DirEntryInternal :=
  { inode := 42, position := 3, name := "file.txt", file_type := DT_REG }

/-- A directory entry with an empty name. -/
def emptyNameEntry : DirEntryInternal :=
  { inode := 7, position := 0, name := "", file_type := DT_DIR }

/-! ## Claim C1 -/

/-- C1 counterexample: the record-length formula, read over unbounded
naturals as the claim states it ("for every `DirEntryInternal`"), fails
for the concrete entry whose name is 65509 bytes long: the `u16`
arithmetic wraps and `get_d_reclen64` returns `0`, while
`round_up_to_multiple_of_8(20 + 65509) = 65536`. -/
theorem get_d_reclen64_formula_fails_on_long_name :
    ¬ (bigNameEntry.get_d_reclen64 =
        spec_round_up_to_multiple_of_8 (20 + bigNameEntry.name.utf8ByteSize)) := by
  have h : bigNameEntry.name.utf8ByteSize = 65509 := utf8_replicate_a 65509
  unfold DirEntryInternal.get_d_reclen64
  rw [h]
  unfold DirEntryInternal.round_up_to_next_multiple_of_8 spec_round_up_to_multiple_of_8
  decide

/-- C1 (amended): for every `DirEntryInternal` whose name is at most
65508 bytes long, `get_d_reclen64` returns
`round_up_to_multiple_of_8(20 + name byte length)`; the rounding rule
maps 0 to 0, 1 to 8, 8 to 8 and 21 to 24; an entry named `file.txt`
yields 32 and an entry with an empty name yields 24. -/
theorem get_d_reclen64_spec :
    (∀ e : DirEntryInternal, e.name.utf8ByteSize ≤ 65508 →
        e.get_d_reclen64 = spec_round_up_to_multiple_of_8 (20 + e.name.utf8ByteSize))
  ∧ spec_round_up_to_multiple_of_8 0 = 0
  ∧ spec_round_up_to_multiple_of_8 1 = 8
  ∧ spec_round_up_to_multiple_of_8 8 = 8
  ∧ spec_round_up_to_multiple_of_8 21 = 24
  ∧ (∀ e : DirEntryInternal, e.name = "file.txt" → e.get_d_reclen64 = 32)
  ∧ (∀ e : DirEntryInternal, e.name = "" → e.get_d_reclen64 = 24) := by
  refine ⟨fun e h => reclen_eq_spec _ h, by decide, by decide, by decide, by decide,
    fun e h => ?_, fun e h => ?_⟩
  · show DirEntryInternal.round_up_to_next_multiple_of_8
        ((20 + e.name.utf8ByteSize % 65536) % 65536) = 32
    rw [h]; decide
  · show DirEntryInternal.round_up_to_next_multiple_of_8
        ((20 + e.name.utf8ByteSize % 65536) % 65536) = 24
    rw [h]; decide

/-- C1 witness: the amended formula evaluated at the concrete entries
named `file.txt` and `""`. -/
theorem get_d_reclen64_spec_witness :
    fileTxtEntry.get_d_reclen64 =
        spec_round_up_to_multiple_of_8 (20 + fileTxtEntry.name.utf8ByteSize)
  ∧ fileTxtEntry.get_d_reclen64 = 32
  ∧ emptyNameEntry.get_d_reclen64 = 24 :=
  ⟨get_d_reclen64_spec.1 fileTxtEntry (by decide),
   get_d_reclen64_spec.2.2.2.2.2.1 fileTxtEntry rfl,
   get_d_reclen64_spec.2.2.2.2.2.2 emptyNameEntry rfl⟩

/-! ## Claim C9 -/

/-- C9: the `u16` arithmetic of `get_d_reclen64` reproduces the
documented formula exactly when the name is at most 65508 bytes long
(so that `20 + length + 7` fits in `u16`), and for every longer name the
returned value differs from round-up-to-8 of `20 + actual length`. -/
theorem get_d_reclen64_u16_range :
    (∀ e : DirEntryInternal, e.name.utf8ByteSize ≤ 65508 →
        e.get_d_reclen64 = spec_round_up_to_multiple_of_8 (20 + e.name.utf8ByteSize))
  ∧ (∀ e : DirEntryInternal, 65508 < e.name.utf8ByteSize →
        e.get_d_reclen64 ≠ spec_round_up_to_multiple_of_8 (20 + e.name.utf8ByteSize)) := by
  constructor
  · exact fun e h => reclen_eq_spec _ h
  · intro e h
    have hle : e.get_d_reclen64 ≤ 65528 := Nat.and_le_right
    have hge : 65536 ≤ spec_round_up_to_multiple_of_8 (20 + e.name.utf8ByteSize) := by
      unfold spec_round_up_to_multiple_of_8
      omega
    omega

/-- C9 witness: the in-range case at the entry named `file.txt` and the
wrapping case at the 65509-byte entry. -/
theorem get_d_reclen64_u16_range_witness :
    fileTxtEntry.get_d_reclen64 =
        spec_round_up_to_multiple_of_8 (20 + fileTxtEntry.name.utf8ByteSize)
  ∧ bigNameEntry.get_d_reclen64 ≠
        spec_round_up_to_multiple_of_8 (20 + bigNameEntry.name.utf8ByteSize) :=
  ⟨get_d_reclen64_u16_range.1 fileTxtEntry (by decide),
   get_d_reclen64_u16_range.2 bigNameEntry (by
      have h : bigNameEntry.name.utf8ByteSize = 65509 := utf8_replicate_a 65509
      omega)⟩

/-! ## Claim C2 -/

/-- C2: for every `OpenOptionsInternal` value, `is_read_only` is true iff
`read` is set and none of the five write-implying flags is set,
`is_write` is true iff at least one of them is set, the two predicates
are never simultaneously true, and both are false when all six flags are
false. -/
theorem open_options_predicates : ∀ o : OpenOptionsInternal,
    (o.is_read_only = true ↔
      o.read = true ∧ o.write = false ∧ o.append = false ∧ o.truncate = false ∧
        o.create = false ∧ o.create_new = false)
  ∧ (o.is_write = true ↔
      o.write = true ∨ o.append = true ∨ o.truncate = true ∨ o.create = true ∨
        o.create_new = true)
  ∧ ¬ (o.is_read_only = true ∧ o.is_write = true)
  ∧ (o = ⟨false, false, false, false, false, false⟩ →
      o.is_read_only = false ∧ o.is_write = false) := by
  intro o
  rcases o with ⟨a, b, c, d, e, f⟩
  revert a b c d e f
  decide

/-- C2 witness: the predicates evaluated at the all-false flag set. -/
theorem open_options_predicates_witness :
    (⟨false, false, false, false, false, false⟩ : OpenOptionsInternal).is_read_only
        = false
  ∧ (⟨false, false, false, false, false, false⟩ : OpenOptionsInternal).is_write
        = false :=
  (open_options_predicates ⟨false, false, false, false, false, false⟩).2.2.2 rfl

/-! ## Claim C3 -/

/-- C3: the conversion between `SeekFromInternal` and `std::io::SeekFrom`
is a bijection — both round trips are the identity — and offsets pass
through numerically unchanged in each variant. -/
theorem seek_from_bijection :
    (∀ s : SeekFromInternal, s.toSeekFrom.toSeekFromInternal = s)
  ∧ (∀ s : SeekFrom, s.toSeekFromInternal.toSeekFrom = s)
  ∧ (∀ n : Nat, (SeekFromInternal.Start n).toSeekFrom = SeekFrom.Start n)
  ∧ (∀ n : Int, (SeekFromInternal.End n).toSeekFrom = SeekFrom.End n)
  ∧ (∀ n : Int, (SeekFromInternal.Current n).toSeekFrom = SeekFrom.Current n) := by
  refine ⟨fun s => ?_, fun s => ?_, fun n => rfl, fun n => rfl, fun n => rfl⟩
  · cases s <;> rfl
  · cases s <;> rfl

/-! ## Claim C4 -/

/-- C4: the version-gate predicates accept exactly the versions at or
above their fixed minimums; in particular `READDIR_BATCH_VERSION`
(`>=1.9.0`) matches `1.9.0` and not `1.8.9`, and `MKDIR_VERSION`
(`>=1.12.0`) matches `1.12.0` and not `1.11.9`. -/
theorem version_gate_minimums :
    (∀ v : SemVersion,
        READDIR_BATCH_VERSION_matches v = true ↔ SemVersion.AtOrAbove ⟨1, 9, 0⟩ v)
  ∧ (∀ v : SemVersion,
        MKDIR_VERSION_matches v = true ↔ SemVersion.AtOrAbove ⟨1, 12, 0⟩ v)
  ∧ READDIR_BATCH_VERSION_matches ⟨1, 9, 0⟩ = true
  ∧ READDIR_BATCH_VERSION_matches ⟨1, 8, 9⟩ = false
  ∧ MKDIR_VERSION_matches ⟨1, 12, 0⟩ = true
  ∧ MKDIR_VERSION_matches ⟨1, 11, 9⟩ = false := by
  refine ⟨fun v => ?_, fun v => ?_, by decide, by decide, by decide, by decide⟩ <;>
    simp [READDIR_BATCH_VERSION_matches, MKDIR_VERSION_matches, versionReqGeMatches,
      SemVersion.AtOrAbove]

/-! ## Claim C5 -/

/-- C5: converting an offset and directory entry to `DirEntryInternal`
propagates the error when the entry itself or its metadata cannot be
read, and otherwise succeeds, deriving the file-type tag solely from the
mode bits masked by `S_IFMT` with the documented `S_IF* ↦ DT_*` mapping
and `DT_UNKNOWN` for every other format pattern. -/
theorem try_from_dir_entry_spec :
    (∀ (offset : Nat) (err : IoError),
        DirEntryInternal.tryFromOffsetEntry offset (.error err) = .error err)
  ∧ (∀ (offset : Nat) (d : DirEntry) (err : IoError), d.metadata = .error err →
        DirEntryInternal.tryFromOffsetEntry offset (.ok d) = .error err)
  ∧ (∀ (offset : Nat) (d : DirEntry) (md : EntryMetadata), d.metadata = .ok md →
        DirEntryInternal.tryFromOffsetEntry offset (.ok d) =
          .ok { inode := d.ino, position := offset, name := d.file_name,
                file_type := dtTypeOfMode md.mode })
  ∧ (∀ m m2 : Nat, m &&& S_IFMT = m2 &&& S_IFMT → dtTypeOfMode m = dtTypeOfMode m2)
  ∧ dtTypeOfMode S_IFLNK = DT_LNK
  ∧ dtTypeOfMode S_IFREG = DT_REG
  ∧ dtTypeOfMode S_IFBLK = DT_BLK
  ∧ dtTypeOfMode S_IFDIR = DT_DIR
  ∧ dtTypeOfMode S_IFCHR = DT_CHR
  ∧ dtTypeOfMode S_IFIFO = DT_FIFO
  ∧ dtTypeOfMode S_IFSOCK = DT_SOCK
  ∧ (∀ m : Nat,
        m &&& S_IFMT ≠ S_IFLNK → m &&& S_IFMT ≠ S_IFREG → m &&& S_IFMT ≠ S_IFBLK →
        m &&& S_IFMT ≠ S_IFDIR → m &&& S_IFMT ≠ S_IFCHR → m &&& S_IFMT ≠ S_IFIFO →
        m &&& S_IFMT ≠ S_IFSOCK → dtTypeOfMode m = DT_UNKNOWN) := by
  refine ⟨fun offset err => rfl,
    fun offset d err h => ?_,
    fun offset d md h => ?_,
    fun m m2 h => ?_,
    by decide, by decide, by decide, by decide, by decide, by decide, by decide,
    fun m h1 h2 h3 h4 h5 h6 h7 => ?_⟩
  · simp [DirEntryInternal.tryFromOffsetEntry, bind, Except.bind, h,
      Functor.map, Except.map]
  · simp [DirEntryInternal.tryFromOffsetEntry, bind, Except.bind, h,
      Functor.map, Except.map, pure, Except.pure]
  · simp only [dtTypeOfMode, h]
  · simp only [dtTypeOfMode, if_neg h1, if_neg h2, if_neg h3, if_neg h4, if_neg h5,
      if_neg h6, if_neg h7]

/-- C5 witness: the conversion evaluated at a concrete failing entry, a
concrete entry with unreadable metadata, and a concrete symlink entry. -/
theorem try_from_dir_entry_spec_witness :
    DirEntryInternal.tryFromOffsetEntry 0 (.error ⟨2⟩) = .error ⟨2⟩
  ∧ DirEntryInternal.tryFromOffsetEntry 1 (.ok ⟨5, .error ⟨13⟩, "gone"⟩) = .error ⟨13⟩
  ∧ DirEntryInternal.tryFromOffsetEntry 3 (.ok ⟨5, .ok ⟨41407⟩, "link"⟩) =
      .ok { inode := 5, position := 3, name := "link", file_type := dtTypeOfMode 41407 } :=
  ⟨try_from_dir_entry_spec.1 0 ⟨2⟩,
   try_from_dir_entry_spec.2.1 1 ⟨5, .error ⟨13⟩, "gone"⟩ ⟨13⟩ rfl,
   try_from_dir_entry_spec.2.2.1 3 ⟨5, .ok ⟨41407⟩, "link"⟩ ⟨41407⟩ rfl⟩

/-! ## Claim C6 -/

/-- C6: for a certificate validity window from `not_before` to
`not_after`, `is_date_valid` returns true exactly at the instants
strictly between the bounds — so it is false at each bound and outside
them — and `Credentials::is_valid` agrees with it. -/
theorem is_date_valid_window : ∀ (v : Validity) (t : Int),
    (v.is_date_valid t = true ↔
      v.not_before.toDateTime < t ∧ t < v.not_after.toDateTime)
  ∧ v.is_date_valid v.not_before.toDateTime = false
  ∧ v.is_date_valid v.not_after.toDateTime = false
  ∧ (∀ c : Credentials, c.certificate.validity = v →
      (c.is_valid t = true ↔
        v.not_before.toDateTime < t ∧ t < v.not_after.toDateTime)) := by
  intro v t
  refine ⟨?_, ?_, ?_, fun c hc => ?_⟩ <;>
    simp [Validity.is_date_valid, Credentials.is_valid, *]

/-- C6 witness: the window `(0, 10)` (as `UtcTime` bounds) evaluated at
the interior instant `5`, at both bounds, and through
`Credentials::is_valid`. -/
theorem is_date_valid_window_witness :
    ((⟨.UtcTime 0, .UtcTime 10⟩ : Validity).is_date_valid 5 = true ↔
        (0 : Int) < 5 ∧ (5 : Int) < 10)
  ∧ (⟨.UtcTime 0, .UtcTime 10⟩ : Validity).is_date_valid 0 = false
  ∧ (⟨.UtcTime 0, .UtcTime 10⟩ : Validity).is_date_valid 10 = false
  ∧ (Credentials.is_valid ⟨⟨⟨.UtcTime 0, .UtcTime 10⟩⟩⟩ 5 = true ↔
        (0 : Int) < 5 ∧ (5 : Int) < 10) :=
  ⟨(is_date_valid_window ⟨.UtcTime 0, .UtcTime 10⟩ 5).1,
   (is_date_valid_window ⟨.UtcTime 0, .UtcTime 10⟩ 0).2.1,
   (is_date_valid_window ⟨.UtcTime 0, .UtcTime 10⟩ 10).2.2.1,
   (is_date_valid_window ⟨.UtcTime 0, .UtcTime 10⟩ 5).2.2.2 ⟨⟨⟨.UtcTime 0, .UtcTime 10⟩⟩⟩ rfl⟩

/-! ## Claim C7 -/

/-- C7: `days_until_expiration` truncates: a `DateTime` expiration
exactly three calendar days after a reference instant, measured by a
clock strictly later than that instant (by less than a day), yields
`some 2`, not `some 3`; a `NaiveDate` expiration equal to the current
date yields `some 0`. -/
theorem days_until_expiration_truncates :
    (∀ ref now : Int, 0 < now - ref → now - ref < 86400 →
        dateTimeDaysUntilExpiration (ref + 3 * 86400) now = some 2)
  ∧ (∀ today : Int, naiveDateDaysUntilExpiration today today = some 0) := by
  constructor
  · intro ref now h1 h2
    unfold dateTimeDaysUntilExpiration
    have hd : num_days (ref + 3 * 86400 - now) = 2 := by
      unfold num_days SECS_PER_DAY
      rw [tdiv_split _ _ (by norm_num), if_pos (by omega)]
      omega
    rw [hd]
    rfl
  · intro today
    unfold naiveDateDaysUntilExpiration
    have hd : num_days ((today - today) * SECS_PER_DAY) = 0 := by
      unfold num_days SECS_PER_DAY
      norm_num
    rw [hd]
    rfl

/-- C7 witness: the expiration `3 * 86400` measured at the instant `1`
(one second after the reference instant `0`), and a `NaiveDate`
expiration on day `738000` measured on day `738000`. -/
theorem days_until_expiration_truncates_witness :
    dateTimeDaysUntilExpiration (0 + 3 * 86400) 1 = some 2
  ∧ naiveDateDaysUntilExpiration 738000 738000 = some 0 :=
  ⟨days_until_expiration_truncates.1 0 1 (by norm_num) (by norm_num),
   days_until_expiration_truncates.2 738000⟩

/-! ## Claim C10 -/

/-- C10: `days_until_expiration` returns `none` exactly when the
truncated day difference is negative — a `DateTime` expiration at least
one full day in the past, or a `NaiveDate` expiration at least one
calendar day in the past; an expiration that passed less than 24 hours
ago still yields `some 0`. -/
theorem days_until_expiration_none_iff :
    (∀ self now : Int,
        dateTimeDaysUntilExpiration self now = none ↔ self ≤ now - 86400)
  ∧ (∀ self now : Int, now - 86400 < self → self ≤ now →
        dateTimeDaysUntilExpiration self now = some 0)
  ∧ (∀ self today : Int,
        naiveDateDaysUntilExpiration self today = none ↔ self < today) := by
  refine ⟨fun self now => ?_, fun self now h1 h2 => ?_, fun self today => ?_⟩
  · have hiff : 0 ≤ num_days (self - now) ↔ now - 86400 < self := by
      unfold num_days SECS_PER_DAY
      rw [tdiv_split _ _ (by norm_num)]
      split <;> omega
    unfold dateTimeDaysUntilExpiration i64_into_u64_ok
    split
    · have hlt := hiff.mp (by assumption)
      simp
      omega
    · have hge : ¬ (now - 86400 < self) := fun hco =>
        (by assumption : ¬ 0 ≤ num_days (self - now)) (hiff.mpr hco)
      simp
      omega
  · have hd : num_days (self - now) = 0 := by
      unfold num_days SECS_PER_DAY
      rw [tdiv_split _ _ (by norm_num)]
      split <;> omega
    unfold dateTimeDaysUntilExpiration
    rw [hd]
    rfl
  · have hd : num_days ((self - today) * SECS_PER_DAY) = self - today := by
      unfold num_days SECS_PER_DAY
      rw [tdiv_split _ _ (by norm_num)]
      split <;> omega
    unfold naiveDateDaysUntilExpiration i64_into_u64_ok
    rw [hd]
    split
    · simp
      omega
    · simp
      omega

/-! ## Claim C8 -/

/-- C8: the Debug representation of `ReadFileResponse` and
`WriteFileRequest` reports only the length of the byte buffer: two
values of the same type with equal buffer lengths and equal remaining
fields have identical Debug output, whatever the bytes are. -/
theorem debug_output_hides_bytes :
    (∀ r1 r2 : ReadFileResponse, r1.bytes.length = r2.bytes.length →
        r1.read_amount = r2.read_amount → r1.debugFmt = r2.debugFmt)
  ∧ (∀ w1 w2 : WriteFileRequest, w1.write_bytes.length = w2.write_bytes.length →
        w1.fd = w2.fd → w1.debugFmt = w2.debugFmt) := by
  constructor
  · intro r1 r2 hlen hamount
    unfold ReadFileResponse.debugFmt
    rw [hlen, hamount]
  · intro w1 w2 hlen hfd
    unfold WriteFileRequest.debugFmt
    rw [hlen, hfd]

/-- C8 witness: two responses and two requests whose byte buffers differ
in content but not in length produce identical Debug strings. -/
theorem debug_output_hides_bytes_witness :
    (⟨[0, 0, 0], 3⟩ : ReadFileResponse).debugFmt =
        (⟨[255, 1, 42], 3⟩ : ReadFileResponse).debugFmt
  ∧ (⟨7, [0, 0]⟩ : WriteFileRequest).debugFmt =
        (⟨7, [9, 200]⟩ : WriteFileRequest).debugFmt :=
  ⟨debug_output_hides_bytes.1 ⟨[0, 0, 0], 3⟩ ⟨[255, 1, 42], 3⟩ rfl rfl,
   debug_output_hides_bytes.2 ⟨7, [0, 0]⟩ ⟨7, [9, 200]⟩ rfl rfl⟩

/-- C10 witness: an expiration exactly one day in the past is `none`, an
expiration 86399 seconds in the past is still `some 0`, and a `NaiveDate`
expiration one day before today is `none`. -/
theorem days_until_expiration_none_iff_witness :
    (dateTimeDaysUntilExpiration 0 86400 = none ↔ (0 : Int) ≤ 86400 - 86400)
  ∧ dateTimeDaysUntilExpiration 0 86399 = some 0
  ∧ (naiveDateDaysUntilExpiration 5 6 = none ↔ (5 : Int) < 6) :=
  ⟨days_until_expiration_none_iff.1 0 86400,
   days_until_expiration_none_iff.2.1 0 86399 (by norm_num) (by norm_num),
   days_until_expiration_none_iff.2.2 5 6⟩
